import Mathlib

/-!
Verification development for the vegetation remapping algorithm of
`adjust_restart_for_new_land_cover.py` (ACCESS-NRI/esm1.6-scripts).

The embedding is shallow:
* a vegetation-fraction grid (`numpy` 3D float array with NaN as the
  missing-value sentinel) is an `Arr3`: dimension sizes plus a total
  function into `Option ℚ`, where `none` models NaN (every comparison
  with NaN is `False`, matching IEEE semantics used by `numpy`);
* a variable array is an `RArr3` (plain rationals; the claims under
  study never depend on NaN appearing inside variable data);
* a 2D boolean search mask is a total function `MaskFun`; the code only
  reads masks at in-bounds indices, and all counting is restricted to
  the grid extent, as `numpy` does;
* in-place mutation of the shared search mask becomes explicit mask
  passing: each stage function returns the new mask.  This is faithful
  because every stage only assigns `True` entries, and the driver loop
  resets the buffer to all-`False` at the end of each episode, so each
  episode starts from the all-false mask;
* `numpy`/`xarray` shape errors (broadcast failures, boolean-index
  mismatches, masked-array construction errors, dimension-size
  conflicts) are modelled by a separate shape-level pass returning
  `Except String`, mirroring the order of the array operations in
  `remap_vegetation`.
-/

/-- A 2D boolean mask over (lat, lon), as used for `SearchMask` and the
`ActiveTileMasks` in the source. -/
abbrev MaskFun := Nat → Nat → Bool

/-- A 3D float array indexed (vegetationType, lat, lon) whose entries may be
the NaN sentinel (`none`).  Models the `numpy` vegetation-fraction grids. -/
structure Arr3 where
  nv : Nat
  nlat : Nat
  nlon : Nat
  data : Nat → Nat → Nat → Option ℚ

/-- A 3D float array of plain values, used for the restart variables. -/
structure RArr3 where
  nv : Nat
  nlat : Nat
  nlon : Nat
  data : Nat → Nat → Nat → ℚ

/-- Truth value of `x <= 0.0` under IEEE comparison semantics: `False` when
`x` is NaN.  This is the elementwise meaning of `InputVegetation <= 0.0`. -/
def qle0 : Option ℚ → Bool
  | none => false
  | some x => decide (x ≤ 0)

/-- Truth value of `x > 0.0` under IEEE comparison semantics: `False` when
`x` is NaN.  Elementwise meaning of `InputVegetation[...] > 0.0`. -/
def qgt0 : Option ℚ → Bool
  | none => false
  | some x => decide (0 < x)

/-- Elementwise meaning of `numpy.isnan`. -/
def isnanQ : Option ℚ → Bool
  | none => true
  | some _ => false

/-! ### Search mask builders (source lines 103-156)

The source mutates `SearchMask` in place; each builder only ever assigns
`True`, so the returned mask is the old mask with the stage's marks added. -/

/-- Embeds `modify_mask_for_cell`: set the single entry `SearchMask[Lat, Lon]`
to `True` (the coordinate argument arrives as `(Lon, Lat)` and is
destructured, so the row index is `Lat`). -/
def modify_mask_for_cell (Lat Lon : Nat) (m : MaskFun) : MaskFun :=
  fun a b => if a = Lat ∧ b = Lon then true else m a b

/-- Embeds `numpy.clip(x, lo, hi)` on integers: `min (max x lo) hi`
(`numpy` applies the maximum first, then the minimum). -/
def clipI (x lo hi : Int) : Int := min (max x lo) hi

/-- Embeds `numpy.arange(-k, k+1)` as a list of integers. -/
def searchInds (k : Nat) : List Int :=
  (List.range (2 * k + 1)).map (fun j => (j : Int) - (k : Int))

/-- The latitude rows touched by the radius/band stages:
`numpy.clip(Lat + searchInds, 0, nLat-1)` (latitude is not periodic). -/
def latIndsOf (k nlat Lat : Nat) : List Int :=
  (searchInds k).map (fun s => clipI ((Lat : Int) + s) 0 ((nlat : Int) - 1))

/-- The longitude columns touched by the radius stage:
`numpy.mod(Lon + searchInds, nLon)` (longitude is periodic; `numpy.mod`
with a positive modulus is the Euclidean remainder, i.e. `Int.emod`). -/
def lonIndsOf (k nlon Lon : Nat) : List Int :=
  (searchInds k).map (fun s => ((Lon : Int) + s) % (nlon : Int))

/-- Embeds `modify_mask_for_nearest`: the double loop sets
`SearchMask[LatSearch, LonSearch] = True` for every pair drawn from
`LatInds x LonInds`. -/
def modify_mask_for_nearest (r nlat nlon Lat Lon : Nat) (m : MaskFun) : MaskFun :=
  fun a b =>
    if (latIndsOf r nlat Lat).contains (a : Int) ∧ (lonIndsOf r nlon Lon).contains (b : Int)
    then true else m a b

/-- Embeds `modify_mask_for_latitude_band`: whole rows `SearchMask[LatSearch, :]`
are set `True` for every row in `LatInds`. -/
def modify_mask_for_latitude_band (band nlat Lat : Nat) (m : MaskFun) : MaskFun :=
  fun a b => if (latIndsOf band nlat Lat).contains (a : Int) then true else m a b

/-- Embeds `modify_mask_for_global`: `SearchMask[:] = True`. -/
def modify_mask_for_global (_ : MaskFun) : MaskFun := fun _ _ => true

/-! ### Active tile filter (source lines 158-186) -/

/-- Python indexing into an axis of length `n`: nonnegative indices below `n`
are used as-is, negative indices at least `-n` wrap, anything else raises
`IndexError` (modelled as `none`). -/
def pyIndex (n : Nat) (i : Int) : Option Nat :=
  if 0 ≤ i ∧ i < (n : Int) then some i.toNat
  else if -(n : Int) ≤ i ∧ i < 0 then some (i + (n : Int)).toNat
  else none

/-- The mask built for one contributing vegetation type `vn` (already a valid
0-based index): `~numpy.isnan(InputVegetation[vn]) & SearchMask &
(InputVegetation[vn] > 0.0)`, elementwise. -/
def activeMask (inG : Arr3) (m : MaskFun) (vn : Nat) : MaskFun :=
  fun a b => (!(isnanQ (inG.data vn a b))) && m a b && qgt0 (inG.data vn a b)

/-- Embeds `find_active_tiles`: one mask per entry of the contributing list
(`VegetationMapping`), in order; indexing `InputVegetation[VegType, :, :]`
with an invalid index raises `IndexError` (modelled as `.error`). -/
def find_active_tiles (m : MaskFun) (inG : Arr3) (idxs : List Int) :
    Except String (List MaskFun) :=
  match idxs with
  | [] => .ok []
  | i :: rest =>
    match pyIndex inG.nv i with
    | none => .error indexErrorMsg
    | some vn =>
      match find_active_tiles m inG rest with
      | .error e => .error e
      | .ok l => .ok (activeMask inG m vn :: l)
where indexErrorMsg : String := "IndexError: index out of bounds for axis 0"

/-! ### Counting and summation over masks -/

/-- All in-bounds (lat, lon) cells of the grid, row-major as `numpy`
enumerates them. -/
def cellList (nlat nlon : Nat) : List (Nat × Nat) :=
  (List.range nlat).flatMap (fun a => (List.range nlon).map (fun b => (a, b)))

/-- Embeds `ActiveTileMask.sum()`: the number of `True` cells of a mask of
shape `(nlat, nlon)`. -/
def maskCount (nlat nlon : Nat) (m : MaskFun) : Nat :=
  ((cellList nlat nlon).filter (fun p => m p.1 p.2)).length

/-- Embeds `PointsFound = sum([ActiveTileMask.sum() for ...])` for the masks
generated from search mask `m` and contributing indices `idxs`. -/
def pointsFound (inG : Arr3) (idxs : List Nat) (nlat nlon : Nat) (m : MaskFun) : Nat :=
  (idxs.map (fun vn => maskCount nlat nlon (activeMask inG m vn))).sum

/-- Embeds the per-tile accumulation `Total`: for each contributing index,
`VarData[TileMask].sum()`, summed over the contributing indices. -/
def tileTotal (inG : Arr3) (var : RArr3) (idxs : List Nat) (nlat nlon : Nat)
    (m : MaskFun) : ℚ :=
  (idxs.map (fun vn =>
    (((cellList nlat nlon).filter (fun p => activeMask inG m vn p.1 p.2)).map
      (fun p => var.data vn p.1 p.2)).sum)).sum

/-! ### The staged search loop (source lines 291-326) -/

/-- Embeds the `for Method, Param, MinPoints in zip(...)` loop: apply the
stage to the accumulated mask, count the matched points, and stop at the
first stage whose count reaches its threshold; if no stage succeeds the
last stage's mask and count are kept. -/
def runSearch (pf : MaskFun → Nat) : List ((MaskFun → MaskFun) × Nat) → MaskFun → MaskFun × Nat
  | [], m => (m, pf m)
  | (f, t) :: rest, m =>
    let m2 := f m
    let p := pf m2
    if t ≤ p then (m2, p) else runSearch pf rest m2

/-- The stage list `zip(SearchMethods, SearchParams, PointsThreshold)` for an
episode at `(Lat, Lon)`: thresholds are `[1, MinPointsFound, MinPointsFound, 1]`. -/
def searchStages (r band minPts nlat nlon Lat Lon : Nat) :
    List ((MaskFun → MaskFun) × Nat) :=
  [(modify_mask_for_cell Lat Lon, 1),
   (modify_mask_for_nearest r nlat nlon Lat Lon, minPts),
   (modify_mask_for_latitude_band band nlat Lat, minPts),
   (modify_mask_for_global, 1)]

/-- One synthesis episode's search outcome: final mask and `PointsFound`.
The episode starts from the all-false mask (the shared buffer is reset at
the end of every episode and is initialised all-false). -/
def episodeResult (inG : Arr3) (idxs : List Nat) (r band minPts nlat nlon Lat Lon : Nat) :
    MaskFun × Nat :=
  runSearch (pointsFound inG idxs nlat nlon)
    (searchStages r band minPts nlat nlon Lat Lon) (fun _ _ => false)

/-- The value an episode writes for one per-tile variable: zero when the
final `PointsFound` is below `MinPointsFound` (source line 331), otherwise
`Total / PointsFound` (source lines 335-352). -/
def synthValue (inG : Arr3) (var : RArr3) (idxs : List Nat)
    (r band minPts nlat nlon Lat Lon : Nat) : ℚ :=
  let res := episodeResult inG idxs r band minPts nlat nlon Lat Lon
  if res.2 < minPts then 0
  else tileTotal inG var idxs nlat nlon res.1 / ((res.2 : ℚ))

/-! ### Fill policy (source lines 222-241) -/

/-- Embeds `TilesToFill`: with `--fill-all`, `InputVegetation <= 0.0`;
otherwise `logical_and(InputVegetation <= 0.0, OutputVegetation > 0.0)`. -/
def tilesToFill (fillAll : Bool) (inG outG : Arr3) (v a b : Nat) : Bool :=
  if fillAll then qle0 (inG.data v a b)
  else qle0 (inG.data v a b) && qgt0 (outG.data v a b)

/-- Embeds `TilesToEmpty`: all-false with `--fill-all` (`numpy.full_like(...,
False)`), otherwise `OutputVegetation <= 0.0`. -/
def tilesToEmpty (fillAll : Bool) (outG : Arr3) (v a b : Nat) : Bool :=
  if fillAll then false else qle0 (outG.data v a b)

/-! ### Per-cell aggregation (source lines 243-270) -/

/-- Embeds one cell of `numpy.sum(Var * MaskedInputVegetation, axis=0)`:
entries of the fraction grid that are NaN or `<= 0.0` are masked out, hence
contribute nothing to the sum (`numpy.ma` drops masked entries). -/
def awSum (inG : Arr3) (var : RArr3) (a b : Nat) : ℚ :=
  ((List.range inG.nv).map (fun i =>
    match inG.data i a b with
    | none => 0
    | some x => if x ≤ 0 then 0 else var.data i a b * x)).sum

/-- The final value of a per-cell variable at `(v, a, b)`: the source copies
the input data, overwrites `TilesToFill` entries with the stacked
area-weighted sum (the same cell value for every output vegetation slot),
then zeroes `TilesToEmpty` entries; the zeroing happens last. -/
def perCellOut (fillAll : Bool) (inG outG : Arr3) (var : RArr3) (v a b : Nat) : ℚ :=
  if tilesToEmpty fillAll outG v a b then 0
  else if tilesToFill fillAll inG outG v a b then awSum inG var a b
  else var.data v a b

/-! ### Per-tile output (source lines 272-357) -/

/-- The initial value of a per-tile variable at `(v, a, b)`: the input data
with `TilesToEmpty` entries zeroed (source lines 274-278). -/
def perTileInit (fillAll : Bool) (outG : Arr3) (var : RArr3) (v a b : Nat) : ℚ :=
  if tilesToEmpty fillAll outG v a b then 0 else var.data v a b

/-- The final value of a per-tile variable at an in-bounds `(v, a, b)`:
`numpy.ma.ndenumerate(MaskedOutputVeg)` visits exactly the `TilesToFill`
points and each episode overwrites that single entry; all other points keep
the initialised value.  The episode uses the grid extent taken from
`OutputVegetation.shape` (source line 197) and the contributing list
`VegMapping[OutVeg]`. -/
def perTileOut (fillAll : Bool) (inG outG : Arr3) (var : RArr3)
    (vegMap : Nat → List Nat) (r band minPts : Nat) (v a b : Nat) : ℚ :=
  if tilesToFill fillAll inG outG v a b then
    synthValue inG var (vegMap v) r band minPts outG.nlat outG.nlon a b
  else perTileInit fillAll outG var v a b

/-! ### Spec-side description of the pooled mean (for claim C1)

These two definitions follow the wording of the specification, not the
source: the matched (contributing index, cell) pairs are pooled into one
list and the value is a single arithmetic mean over that pool. -/

/-- Modelled from the spec: the pooled list of matched (input index, cell)
pairs, `over contributing input index i, over matched cells in that index's
ActiveTileMask`. -/
def pooledPairs (inG : Arr3) (idxs : List Nat) (nlat nlon : Nat) (m : MaskFun) :
    List (Nat × Nat × Nat) :=
  idxs.flatMap (fun vn =>
    ((cellList nlat nlon).filter (fun p => activeMask inG m vn p.1 p.2)).map
      (fun p => (vn, p.1, p.2)))

/-- Modelled from the spec: `value = (sum over pooled pairs of the input
variable's value) / PointsFound`, with `PointsFound` the number of pooled
pairs — a single arithmetic mean, not an average of per-index averages. -/
def specPooledMean (var : RArr3) (pairs : List (Nat × Nat × Nat)) : ℚ :=
  ((pairs.map (fun q => var.data q.1 q.2.1 q.2.2)).sum) / ((pairs.length : ℚ))

/-! ### Shape-level pass of `remap_vegetation` (for the error-handling claims)

`remap_vegetation` performs no explicit dimension validation; whether a run
with mismatched array shapes fails, and where, is decided by the implicit
shape rules of the `numpy`/`xarray` operations it executes.  The following
definitions replay, in source order, exactly the shape-relevant checks those
operations make.  Data values are irrelevant to these checks, so the pass
works on shapes alone. -/

/-- The shape of a 3D array (vegetationType, lat, lon). -/
structure Shape3 where
  nv : Nat
  nlat : Nat
  nlon : Nat
deriving DecidableEq

/-- Error message for a failed `numpy` broadcast. -/
def broadcastErrMsg : String := "ValueError: operands could not be broadcast together"

/-- Error message for a boolean-mask index whose shape does not match. -/
def booleanIndexErrMsg : String := "IndexError: boolean index did not match indexed array"

/-- Error message for `numpy.ma.masked_array` with an incompatible mask. -/
def maskErrMsg : String := "numpy.ma.MaskError: Mask and data not compatible"

/-- Error message for an `xarray` dimension-size conflict on assignment. -/
def dimConflictErrMsg : String := "ValueError: conflicting sizes for dimension"

/-- Error message for looking up the unbound module global `NewVegetation`. -/
def nameErrMsg : String := "NameError: name NewVegetation is not defined"

/-- Error message for an out-of-range vegetation index used during synthesis. -/
def synthIndexErrMsg : String := "IndexError: vegetation index out of bounds"

/-- `numpy` broadcasting of one axis: equal sizes pass through, a size of 1
stretches, anything else is an error. -/
def broadcastDim (m n : Nat) : Except String Nat :=
  if m = n then .ok m
  else if m = 1 then .ok n
  else if n = 1 then .ok m
  else .error broadcastErrMsg

/-- `numpy` broadcasting of two 3D shapes, axis by axis. -/
def broadcast3 (s t : Shape3) : Except String Shape3 :=
  match broadcastDim s.nv t.nv with
  | .error e => .error e
  | .ok v =>
    match broadcastDim s.nlat t.nlat with
    | .error e => .error e
    | .ok la =>
      match broadcastDim s.nlon t.nlon with
      | .error e => .error e
      | .ok lo => .ok ⟨v, la, lo⟩

/-- `OutDataset[Name] = (("veg", "lat", "lon"), Data)`: `xarray` rejects the
assignment unless the data's shape agrees with the dataset's coordinate
sizes, which were built from `OutputVegetation.shape` (source lines 83-99). -/
def assignToDataset (outS vS : Shape3) : Except String Unit :=
  if vS = outS then .ok () else .error dimConflictErrMsg

/-- Embeds source lines 212-216: the fraction variables are assigned from the
module-level global name `NewVegetation`, not from the `OutputVegetation`
parameter.  An unbound global raises `NameError`; a bound one must fit the
output coordinate sizes. -/
def fractionsAssignShape (globalNV : Option Shape3) (outS : Shape3) : Except String Unit :=
  match globalNV with
  | none => .error nameErrMsg
  | some s => assignToDataset outS s

/-- Embeds the shapes produced by the fill policy (source lines 222-241):
with `--fill-all` both masks take `InputVegetation`'s shape; otherwise
`TilesToFill` is the broadcast of the two grids and `TilesToEmpty` takes
`OutputVegetation`'s shape. -/
def fillPolicyShapes (fillAll : Bool) (inS outS : Shape3) :
    Except String (Shape3 × Shape3) :=
  if fillAll then .ok (inS, inS)
  else
    match broadcast3 inS outS with
    | .error e => .error e
    | .ok f => .ok (f, outS)

/-- The part of `remap_vegetation` that runs before any synthesis (source
lines 197-241): unpacking `OutputVegetation.shape`, building the output
dataset, assigning the fraction variables from the global `NewVegetation`,
and computing the fill policy.  No other shape-sensitive operation occurs in
this region — in particular, no explicit dimension check. -/
def remapPreShapes (fillAll : Bool) (inS outS : Shape3) (globalNV : Option Shape3) :
    Except String (Shape3 × Shape3) :=
  match fractionsAssignShape globalNV outS with
  | .error e => .error e
  | .ok _ => fillPolicyShapes fillAll inS outS

/-- Shape checks performed for one per-cell variable (source lines 254-270):
the product `Var * MaskedInputVegetation` broadcasts the two shapes; the
stacked area-weighted mean has `nOutputVeg` copies of the summed plane;
`AreaWeightedMean[TilesToFill]` and `OutData[TilesToFill] = ...` need the
boolean mask's shape to equal the indexed array's; `OutData[TilesToEmpty]`
likewise; finally the dataset assignment checks the coordinate sizes. -/
def perCellVarShapes (inS outS fillS emptyS vS : Shape3) : Except String Unit :=
  match broadcast3 vS inS with
  | .error e => .error e
  | .ok pS =>
    if fillS = (⟨outS.nv, pS.nlat, pS.nlon⟩ : Shape3) then
      if fillS = vS then
        if emptyS = vS then assignToDataset outS vS
        else .error booleanIndexErrMsg
      else .error booleanIndexErrMsg
    else .error booleanIndexErrMsg

/-- Shape checks performed for one per-tile variable's initialisation
(source lines 274-278): `OutData[TilesToEmpty] = 0` needs the mask shape to
equal the array shape, then the dataset assignment checks coordinate sizes. -/
def perTileVarShapes (outS emptyS vS : Shape3) : Except String Unit :=
  if emptyS = vS then assignToDataset outS vS else .error booleanIndexErrMsg

/-- Shape check of `numpy.ma.masked_array(OutputVegetation, mask=~TilesToFill)`
(source line 283): the mask must fit the data. -/
def maskedArrayShapes (outS fillS : Shape3) : Except String Unit :=
  if fillS = outS then .ok () else .error maskErrMsg

/-- Index-safety of the synthesis loop (source lines 306-352): every
contributing index `VegMapping[OutVeg]` must be a valid Python index into
axis 0 of `InputVegetation` (used by `find_active_tiles`) and of every
per-tile variable (used by `InputDataset[Variable][InVeg, :, :]`).  The pass
is conservative: it flags any index that could be accessed by some episode. -/
def synthShapes (inS outS : Shape3) (vegMap : Nat → List Int)
    (perTile : List Shape3) : Except String Unit :=
  if (∀ v, v < outS.nv → ∀ i ∈ vegMap v,
      (pyIndex inS.nv i).isSome = true ∧
      ∀ vS ∈ perTile, (pyIndex vS.nv i).isSome = true)
  then .ok () else .error synthIndexErrMsg

/-- Run a shape check over every variable in a list, stopping at the first
error, as the source's `for Variable in ...` loops do. -/
def checkAll (f : Shape3 → Except String Unit) : List Shape3 → Except String Unit
  | [] => .ok ()
  | s :: rest =>
    match f s with
    | .error e => .error e
    | .ok _ => checkAll f rest

/-- Sequencing of two fallible steps: the second runs only if the first
succeeded (Python's exception propagation). -/
def exSeq (x : Except String Unit) (y : Unit → Except String Unit) : Except String Unit :=
  match x with
  | .error e => .error e
  | .ok _ => y ()

/-- The shape checks that follow the pre-synthesis region, with the fill and
empty mask shapes already computed: per-cell loop, per-tile initialisation
loop, masked output-vegetation construction, synthesis loop. -/
def remapShapesPost (inS outS fillS emptyS : Shape3) (perCell perTile : List Shape3)
    (vegMap : Nat → List Int) : Except String Unit :=
  exSeq (checkAll (perCellVarShapes inS outS fillS emptyS) perCell) (fun _ =>
    exSeq (checkAll (perTileVarShapes outS emptyS) perTile) (fun _ =>
      exSeq (maskedArrayShapes outS fillS) (fun _ =>
        synthShapes inS outS vegMap perTile)))

/-- The whole shape-relevant trace of `remap_vegetation`, in source order:
pre-synthesis region, per-cell loop, per-tile initialisation loop, masked
output-vegetation construction, synthesis loop. -/
def remapShapes (fillAll : Bool) (inS outS : Shape3) (globalNV : Option Shape3)
    (perCell perTile : List Shape3) (vegMap : Nat → List Int) : Except String Unit :=
  match remapPreShapes fillAll inS outS globalNV with
  | .error e => .error e
  | .ok (fillS, emptyS) => remapShapesPost inS outS fillS emptyS perCell perTile vegMap

/-- Value-level embedding of source lines 212-216 for the fraction variables:
the array written to `FRACTIONS OF SURFACE TYPES` and `PREVIOUS YEAR SURF
FRACTIONS (TILES)` is the module global `NewVegetation`, validated by
`xarray` against the coordinate sizes taken from `OutputVegetation.shape`,
and never the `OutputVegetation` argument itself. -/
def writtenFractions (globalNV : Option Arr3) (outArg : Arr3) : Except String Arr3 :=
  match globalNV with
  | none => .error nameErrMsg
  | some g =>
    if g.nv = outArg.nv ∧ g.nlat = outArg.nlat ∧ g.nlon = outArg.nlon then .ok g
    else .error dimConflictErrMsg

/-! ### Cumulative stage masks (for the monotone-escalation claim)

During one episode the loop applies the stage methods in the fixed order
cell, radius, band, global to the same in-place buffer, so the mask present
after stage `k` is the cumulative application of the first `k+1` methods to
the all-false buffer.  `stageMask k` reconstructs exactly that mask. -/

/-- The search mask after the stage of index `k` (0 = cell, 1 = radius,
2 = band, 3 and beyond = global) has been applied during an episode at
`(Lat, Lon)`. -/
def stageMask (r band nlat nlon Lat Lon k : Nat) : MaskFun :=
  if k = 0 then modify_mask_for_cell Lat Lon (fun _ _ => false)
  else if k = 1 then
    modify_mask_for_nearest r nlat nlon Lat Lon
      (modify_mask_for_cell Lat Lon (fun _ _ => false))
  else if k = 2 then
    modify_mask_for_latitude_band band nlat Lat
      (modify_mask_for_nearest r nlat nlon Lat Lon
        (modify_mask_for_cell Lat Lon (fun _ _ => false)))
  else
    modify_mask_for_global
      (modify_mask_for_latitude_band band nlat Lat
        (modify_mask_for_nearest r nlat nlon Lat Lon
          (modify_mask_for_cell Lat Lon (fun _ _ => false))))

/-! ### Helper lemmas -/

lemma filter_length_mono {α : Type} (p q : α → Bool) :
    ∀ l : List α, (∀ x ∈ l, p x = true → q x = true) →
      (l.filter p).length ≤ (l.filter q).length := by
  intro l
  induction l with
  | nil => intro _; simp
  | cons x xs ih =>
    intro h
    have hxs := ih (fun y hy hp => h y (List.mem_cons_of_mem _ hy) hp)
    by_cases hp : p x = true
    · have hq := h x (List.mem_cons_self x xs) hp
      simp only [List.filter_cons, hp, hq, if_true, List.length_cons]
      omega
    · simp only [List.filter_cons, hp, if_false, Bool.false_eq_true]
      by_cases hq : q x = true
      · simp only [hq, if_true, List.length_cons]
        omega
      · simp only [hq, if_false, Bool.false_eq_true]
        exact hxs

lemma activeMask_mono (inG : Arr3) (m m' : MaskFun) (vn a b : Nat)
    (h : m a b = true → m' a b = true) :
    activeMask inG m vn a b = true → activeMask inG m' vn a b = true := by
  simp only [activeMask, Bool.and_eq_true]
  tauto

lemma pointsFound_mono (inG : Arr3) (idxs : List Nat) (nlat nlon : Nat) (m m' : MaskFun)
    (h : ∀ a b, m a b = true → m' a b = true) :
    pointsFound inG idxs nlat nlon m ≤ pointsFound inG idxs nlat nlon m' := by
  unfold pointsFound
  apply List.sum_le_sum
  intro vn _
  unfold maskCount
  exact filter_length_mono _ _ _ (fun p _ hp => activeMask_mono inG m m' vn p.1 p.2 (h p.1 p.2) hp)

lemma runSearch_snd (pf : MaskFun → Nat) :
    ∀ (l : List ((MaskFun → MaskFun) × Nat)) (m : MaskFun),
      (runSearch pf l m).2 = pf (runSearch pf l m).1 := by
  intro l
  induction l with
  | nil => intro m; rfl
  | cons ft rest ih =>
    intro m
    rcases ft with ⟨f, t⟩
    by_cases hc : t ≤ pf (f m)
    · simp [runSearch, hc]
    · simp only [runSearch]
      rw [if_neg hc]
      exact ih (f m)

lemma nearest_preserves (r nlat nlon Lat Lon : Nat) (m : MaskFun) (a b : Nat)
    (h : m a b = true) : modify_mask_for_nearest r nlat nlon Lat Lon m a b = true := by
  unfold modify_mask_for_nearest
  split
  · rfl
  · exact h

lemma band_preserves (band nlat Lat : Nat) (m : MaskFun) (a b : Nat)
    (h : m a b = true) : modify_mask_for_latitude_band band nlat Lat m a b = true := by
  unfold modify_mask_for_latitude_band
  split
  · rfl
  · exact h

lemma stageMask_subset (r band nlat nlon Lat Lon : Nat) :
    ∀ k a b, stageMask r band nlat nlon Lat Lon k a b = true →
      stageMask r band nlat nlon Lat Lon (k + 1) a b = true := by
  intro k a b h
  by_cases h0 : k = 0
  · subst h0
    simp only [stageMask] at h ⊢
    norm_num
    exact nearest_preserves r nlat nlon Lat Lon _ a b h
  · by_cases h1 : k = 1
    · subst h1
      simp only [stageMask] at h ⊢
      norm_num at h ⊢
      exact band_preserves band nlat Lat _ a b h
    · by_cases h2 : k = 2
      · subst h2
        simp only [stageMask, modify_mask_for_global]
        norm_num
        rfl
      · have hk1 : ¬ (k + 1 = 0) := by omega
        have hk2 : ¬ (k + 1 = 1) := by omega
        have hk3 : ¬ (k + 1 = 2) := by omega
        simp only [stageMask, h0, h1, h2, hk1, hk2, hk3, if_false, modify_mask_for_global]

lemma pooledPairs_length (inG : Arr3) (idxs : List Nat) (nlat nlon : Nat) (m : MaskFun) :
    (pooledPairs inG idxs nlat nlon m).length = pointsFound inG idxs nlat nlon m := by
  induction idxs with
  | nil => rfl
  | cons vn rest ih =>
    simp only [pooledPairs, pointsFound, maskCount, List.flatMap_cons, List.length_append,
      List.length_map, List.map_cons, List.sum_cons] at *
    omega

lemma pooledPairs_sum (inG : Arr3) (var : RArr3) (idxs : List Nat) (nlat nlon : Nat)
    (m : MaskFun) :
    ((pooledPairs inG idxs nlat nlon m).map (fun q => var.data q.1 q.2.1 q.2.2)).sum =
      tileTotal inG var idxs nlat nlon m := by
  induction idxs with
  | nil => rfl
  | cons vn rest ih =>
    simp only [pooledPairs, tileTotal, List.flatMap_cons, List.map_append, List.sum_append,
      List.map_cons, List.sum_cons, List.map_map, Function.comp] at *
    rw [ih]
    rfl

lemma fill_imp_not_empty (fillAll : Bool) (inG outG : Arr3) (v a b : Nat)
    (h : tilesToFill fillAll inG outG v a b = true) :
    tilesToEmpty fillAll outG v a b = false := by
  cases fillAll
  · simp only [tilesToFill, if_false, Bool.and_eq_true, Bool.false_eq_true] at h
    rcases h with ⟨_, h2⟩
    simp only [tilesToEmpty, if_false, Bool.false_eq_true]
    cases hx : outG.data v a b with
    | none => simp [qle0]
    | some x =>
      rw [hx] at h2
      simp only [qgt0, decide_eq_true_eq] at h2
      simp only [qle0, decide_eq_false_iff_not, not_le]
      exact h2
  · simp [tilesToEmpty]

/-! ### Claim theorems (value level) -/

/-- C2: for every synthesis episode and every pair of consecutive search
stages k and k+1 in the fixed order cell, radius, band, global, the set of
true cells of the SearchMask at stage k is a subset of the set at stage k+1
(stated as boolean absorption), and consequently PointsFound at stage k+1
is at least PointsFound at stage k. -/
theorem search_masks_monotone (inG : Arr3) (idxs : List Nat)
    (r band nlat nlon Lat Lon k a b : Nat) :
    ((stageMask r band nlat nlon Lat Lon k a b ||
        stageMask r band nlat nlon Lat Lon (k + 1) a b) =
      stageMask r band nlat nlon Lat Lon (k + 1) a b) ∧
    pointsFound inG idxs nlat nlon (stageMask r band nlat nlon Lat Lon k) ≤
      pointsFound inG idxs nlat nlon (stageMask r band nlat nlon Lat Lon (k + 1)) := by
  constructor
  · cases hk : stageMask r band nlat nlon Lat Lon k a b
    · simp
    · simp [stageMask_subset r band nlat nlon Lat Lon k a b hk]
  · exact pointsFound_mono inG idxs nlat nlon _ _
      (fun a b => stageMask_subset r band nlat nlon Lat Lon k a b)

/-- C6: in both fill-all and fill-new-only modes, no tile is simultaneously
marked to be filled and to be emptied: the conjunction of `TilesToFill` and
`TilesToEmpty` is false at every (vegetationType, lat, lon). -/
theorem fill_empty_disjoint (fillAll : Bool) (inG outG : Arr3) (v a b : Nat) :
    (tilesToFill fillAll inG outG v a b && tilesToEmpty fillAll outG v a b) = false := by
  cases hf : tilesToFill fillAll inG outG v a b
  · simp
  · simp [fill_imp_not_empty fillAll inG outG v a b hf]

/-- C5: a per-cell variable's output holds, at every `TilesToFill` position,
the per-grid-cell sum over input vegetation indices of value times fraction
(indices with missing or non-positive fraction excluded), identical for
every output-vegetation slot since `awSum` does not depend on `v`; at
positions not in `TilesToFill` it keeps the input value, except at
`TilesToEmpty` positions where it is zero. -/
theorem per_cell_aggregation (fillAll : Bool) (inG outG : Arr3) (var : RArr3)
    (v a b : Nat) :
    (tilesToFill fillAll inG outG v a b = true →
      perCellOut fillAll inG outG var v a b = awSum inG var a b) ∧
    (tilesToFill fillAll inG outG v a b = false →
      tilesToEmpty fillAll outG v a b = false →
      perCellOut fillAll inG outG var v a b = var.data v a b) ∧
    (tilesToFill fillAll inG outG v a b = false →
      tilesToEmpty fillAll outG v a b = true →
      perCellOut fillAll inG outG var v a b = 0) := by
  refine ⟨?_, ?_, ?_⟩
  · intro hf
    have he := fill_imp_not_empty fillAll inG outG v a b hf
    simp [perCellOut, hf, he]
  · intro hf he
    simp [perCellOut, hf, he]
  · intro hf he
    simp [perCellOut, hf, he]

/-- C9: with `fillAll = true` on an input whose fraction grid has no entry
satisfying `inputFraction <= 0` (at any in-bounds index), every per-cell and
per-tile variable is unchanged from the input. -/
theorem fill_all_idempotent (inG outG : Arr3) (var : RArr3) (vegMap : Nat → List Nat)
    (r band minPts : Nat)
    (h : ∀ v, v < inG.nv → ∀ a, a < inG.nlat → ∀ b, b < inG.nlon →
      qle0 (inG.data v a b) = false)
    (v a b : Nat) (hv : v < inG.nv) (ha : a < inG.nlat) (hb : b < inG.nlon) :
    perCellOut true inG outG var v a b = var.data v a b ∧
    perTileOut true inG outG var vegMap r band minPts v a b = var.data v a b := by
  have hf : tilesToFill true inG outG v a b = false := by
    simp [tilesToFill, h v hv a ha b hb]
  have he : tilesToEmpty true outG v a b = false := by
    simp [tilesToEmpty]
  constructor
  · simp [perCellOut, hf, he]
  · simp [perTileOut, perTileInit, hf, he]

/-- C3: at a `TilesToFill` point whose global-stage search still finds fewer
than `minimum_points` matched points (so every stage finds fewer, the masks
being subsets of the all-true global mask), the per-tile value written is
exactly zero; the embedded computation is total, so this outcome raises no
error. -/
theorem zero_fill_insufficient_global (fillAll : Bool) (inG outG : Arr3) (var : RArr3)
    (vegMap : Nat → List Nat) (r band minPts v a b : Nat)
    (hfill : tilesToFill fillAll inG outG v a b = true)
    (hglob : pointsFound inG (vegMap v) outG.nlat outG.nlon (fun _ _ => true) < minPts) :
    perTileOut fillAll inG outG var vegMap r band minPts v a b = 0 := by
  unfold perTileOut
  rw [if_pos hfill]
  have hsnd : (episodeResult inG (vegMap v) r band minPts outG.nlat outG.nlon a b).2 =
      pointsFound inG (vegMap v) outG.nlat outG.nlon
        (episodeResult inG (vegMap v) r band minPts outG.nlat outG.nlon a b).1 :=
    runSearch_snd (pointsFound inG (vegMap v) outG.nlat outG.nlon)
      (searchStages r band minPts outG.nlat outG.nlon a b) (fun _ _ => false)
  have hle : pointsFound inG (vegMap v) outG.nlat outG.nlon
      (episodeResult inG (vegMap v) r band minPts outG.nlat outG.nlon a b).1 ≤
      pointsFound inG (vegMap v) outG.nlat outG.nlon (fun _ _ => true) :=
    pointsFound_mono inG (vegMap v) outG.nlat outG.nlon _ _ (fun _ _ _ => rfl)
  have hlt : (episodeResult inG (vegMap v) r band minPts outG.nlat outG.nlon a b).2 <
      minPts := by
    rw [hsnd]
    exact lt_of_le_of_lt hle hglob
  simp only [synthValue]
  rw [if_pos hlt]

/-- C1: at a `TilesToFill` point where the staged search stops with
PointsFound at least the configured `minimum_points`, each per-tile variable
is assigned the single arithmetic mean over the pooled matched (contributing
index, cell) pairs of the final stage's ActiveTileMasks — the pooled sum of
the variable's values divided by the number of pooled pairs (PointsFound) —
not an average of per-index averages.  The hypotheses `_hmin` and `_hvm`
restrict to the modelled domain: a positive configured minimum (as the spec
requires of `minimum_points`) and in-range contributing indices. -/
theorem per_tile_pooled_mean (fillAll : Bool) (inG outG : Arr3) (var : RArr3)
    (vegMap : Nat → List Nat) (r band minPts v a b : Nat)
    (hfill : tilesToFill fillAll inG outG v a b = true)
    (_hmin : 1 ≤ minPts)
    (_hvm : ∀ i ∈ vegMap v, i < inG.nv)
    (hpf : minPts ≤ (episodeResult inG (vegMap v) r band minPts outG.nlat outG.nlon a b).2) :
    perTileOut fillAll inG outG var vegMap r band minPts v a b =
      specPooledMean var (pooledPairs inG (vegMap v) outG.nlat outG.nlon
        (episodeResult inG (vegMap v) r band minPts outG.nlat outG.nlon a b).1) := by
  unfold perTileOut
  rw [if_pos hfill]
  have hlt : ¬ ((episodeResult inG (vegMap v) r band minPts outG.nlat outG.nlon a b).2 <
      minPts) := not_lt.mpr hpf
  simp only [synthValue]
  rw [if_neg hlt]
  have hsnd : (episodeResult inG (vegMap v) r band minPts outG.nlat outG.nlon a b).2 =
      pointsFound inG (vegMap v) outG.nlat outG.nlon
        (episodeResult inG (vegMap v) r band minPts outG.nlat outG.nlon a b).1 :=
    runSearch_snd (pointsFound inG (vegMap v) outG.nlat outG.nlon)
      (searchStages r band minPts outG.nlat outG.nlon a b) (fun _ _ => false)
  unfold specPooledMean
  rw [pooledPairs_sum, pooledPairs_length, hsnd]

/-- C4: for a search mask, an input fraction grid, and a list of
contributing input vegetation indices (valid 0-based indices, as the
specification's data model defines them), `find_active_tiles` returns
exactly one boolean mask per contributing index — never an error — and each
mask equals, cellwise, searchMask AND NOT isMissing(fraction) AND
fraction > 0.  A point count of zero simply means all masks are all-false. -/
theorem find_active_tiles_contract (m : MaskFun) (inG : Arr3) (idxs : List Int)
    (h : ∀ i ∈ idxs, 0 ≤ i ∧ i < (inG.nv : Int)) :
    ∃ L, find_active_tiles m inG idxs = .ok L ∧ L.length = idxs.length ∧
      ∀ k, k < idxs.length → ∀ a b,
        (L.getD k (fun _ _ => false)) a b =
          (m a b && !(isnanQ (inG.data (idxs.getD k 0).toNat a b)) &&
            qgt0 (inG.data (idxs.getD k 0).toNat a b)) := by
  induction idxs with
  | nil => exact ⟨[], rfl, rfl, fun k hk => absurd hk (by simp)⟩
  | cons i rest ih =>
    have hi := h i (List.mem_cons_self i rest)
    rcases ih (fun j hj => h j (List.mem_cons_of_mem _ hj)) with ⟨L, hL, hlen, hget⟩
    have hpy : pyIndex inG.nv i = some i.toNat := by
      unfold pyIndex
      rw [if_pos hi]
    refine ⟨activeMask inG m i.toNat :: L, ?_, ?_, ?_⟩
    · simp only [find_active_tiles]
      rw [hpy, hL]
    · simp [hlen]
    · intro k hk a b
      match k with
      | 0 =>
        simp only [List.getD_cons_zero]
        cases hm : m a b <;> cases hn : isnanQ (inG.data i.toNat a b) <;>
          cases hg : qgt0 (inG.data i.toNat a b) <;>
          simp [activeMask, hm, hn, hg]
      | k + 1 =>
        simp only [List.getD_cons_succ]
        exact hget k (by simp at hk; omega) a b

/-! ### Shape-level helper lemmas -/

lemma checkAll_cons_error (f : Shape3 → Except String Unit) (s : Shape3)
    (rest : List Shape3) (e : String) (h : f s = .error e) :
    checkAll f (s :: rest) = .error e := by
  unfold checkAll
  rw [h]

lemma checkAll_ok (f : Shape3 → Except String Unit) :
    ∀ l : List Shape3, (∀ x ∈ l, f x = .ok ()) → checkAll f l = .ok () := by
  intro l
  induction l with
  | nil => intro _; rfl
  | cons s rest ih =>
    intro h
    unfold checkAll
    rw [h s (List.mem_cons_self s rest)]
    exact ih (fun x hx => h x (List.mem_cons_of_mem _ hx))

lemma broadcastDim_self (n : Nat) : broadcastDim n n = .ok n := by
  unfold broadcastDim
  rw [if_pos rfl]

lemma broadcast3_self (s : Shape3) : broadcast3 s s = .ok s := by
  unfold broadcast3
  rw [broadcastDim_self, broadcastDim_self, broadcastDim_self]

lemma pyIndex_isSome (n : Nat) (i : Int) (h0 : 0 ≤ i) (h1 : i < (n : Int)) :
    (pyIndex n i).isSome = true := by
  unfold pyIndex
  rw [if_pos ⟨h0, h1⟩]
  rfl

lemma perCellVarShapes_mismatch (inS outS vS : Shape3) (hnv : inS.nv ≠ outS.nv) :
    ∃ e, perCellVarShapes inS outS inS inS vS = .error e := by
  unfold perCellVarShapes
  cases hb : broadcast3 vS inS with
  | error e => exact ⟨e, rfl⟩
  | ok pS =>
    have hne : ¬ (inS = (⟨outS.nv, pS.nlat, pS.nlon⟩ : Shape3)) := by
      intro hcontra
      apply hnv
      rw [hcontra]
    refine ⟨booleanIndexErrMsg, ?_⟩
    show (if inS = (⟨outS.nv, pS.nlat, pS.nlon⟩ : Shape3) then
        (if inS = vS then
          (if inS = vS then assignToDataset outS vS else Except.error booleanIndexErrMsg)
         else Except.error booleanIndexErrMsg)
      else Except.error booleanIndexErrMsg) = Except.error booleanIndexErrMsg
    rw [if_neg hne]

lemma perTileVarShapes_mismatch (inS outS vS : Shape3) (hnv : inS.nv ≠ outS.nv) :
    ∃ e, perTileVarShapes outS inS vS = .error e := by
  unfold perTileVarShapes
  by_cases h1 : inS = vS
  · rw [if_pos h1]
    unfold assignToDataset
    have h2 : ¬ (vS = outS) := by
      intro h3
      apply hnv
      rw [← h1] at h3
      rw [h3]
    rw [if_neg h2]
    exact ⟨dimConflictErrMsg, rfl⟩
  · rw [if_neg h1]
    exact ⟨booleanIndexErrMsg, rfl⟩

lemma remapPreShapes_fillall (inS outS : Shape3) :
    remapPreShapes true inS outS (some outS) = .ok (inS, inS) := by
  have h1 : fractionsAssignShape (some outS) outS = .ok () := by
    show (if outS = outS then Except.ok () else Except.error dimConflictErrMsg) = Except.ok ()
    rw [if_pos rfl]
  show (match fractionsAssignShape (some outS) outS with
    | Except.error e => Except.error e
    | Except.ok _ => fillPolicyShapes true inS outS) = Except.ok (inS, inS)
  rw [h1]
  rfl

lemma remapShapes_fillall_mismatch (inS outS : Shape3) (perCell perTile : List Shape3)
    (vegMap : Nat → List Int) (hnv : inS.nv ≠ outS.nv) :
    ∃ e, remapShapes true inS outS (some outS) perCell perTile vegMap = .error e := by
  have hstep : remapShapes true inS outS (some outS) perCell perTile vegMap =
      remapShapesPost inS outS inS inS perCell perTile vegMap := by
    unfold remapShapes
    rw [remapPreShapes_fillall]
  rw [hstep]
  unfold remapShapesPost
  cases perCell with
  | cons v0 rest =>
    rcases perCellVarShapes_mismatch inS outS v0 hnv with ⟨e, he⟩
    rw [checkAll_cons_error _ _ _ _ he]
    exact ⟨e, rfl⟩
  | nil =>
    have hnil : checkAll (perCellVarShapes inS outS inS inS) [] = .ok () := rfl
    rw [hnil]
    cases perTile with
    | cons v0 rest =>
      rcases perTileVarShapes_mismatch inS outS v0 hnv with ⟨e, he⟩
      rw [show exSeq (Except.ok ()) (fun _ =>
          exSeq (checkAll (perTileVarShapes outS inS) (v0 :: rest)) (fun _ =>
            exSeq (maskedArrayShapes outS inS) (fun _ =>
              synthShapes inS outS vegMap (v0 :: rest)))) =
          exSeq (checkAll (perTileVarShapes outS inS) (v0 :: rest)) (fun _ =>
            exSeq (maskedArrayShapes outS inS) (fun _ =>
              synthShapes inS outS vegMap (v0 :: rest))) from rfl]
      rw [checkAll_cons_error _ _ _ _ he]
      exact ⟨e, rfl⟩
    | nil =>
      have hmask : maskedArrayShapes outS inS = .error maskErrMsg := by
        unfold maskedArrayShapes
        rw [if_neg (fun h => hnv (by rw [h]))]
      refine ⟨maskErrMsg, ?_⟩
      show exSeq (Except.ok ()) _ = _
      rw [show exSeq (Except.ok ()) (fun _ =>
          exSeq (checkAll (perTileVarShapes outS inS) []) (fun _ =>
            exSeq (maskedArrayShapes outS inS) (fun _ =>
              synthShapes inS outS vegMap []))) =
          exSeq (maskedArrayShapes outS inS) (fun _ =>
            synthShapes inS outS vegMap []) from rfl]
      rw [hmask]
      rfl

lemma remapPreShapes_same (fillAll : Bool) (s : Shape3) :
    remapPreShapes fillAll s s (some s) = .ok (s, s) := by
  cases fillAll
  · have h1 : fractionsAssignShape (some s) s = .ok () := by
      show (if s = s then Except.ok () else Except.error dimConflictErrMsg) = Except.ok ()
      rw [if_pos rfl]
    show (match fractionsAssignShape (some s) s with
      | Except.error e => Except.error e
      | Except.ok _ => fillPolicyShapes false s s) = Except.ok (s, s)
    rw [h1]
    show fillPolicyShapes false s s = Except.ok (s, s)
    show (match broadcast3 s s with
      | Except.error e => Except.error e
      | Except.ok f => Except.ok (f, s)) = Except.ok (s, s)
    rw [broadcast3_self]
  · exact remapPreShapes_fillall s s

lemma perCellVarShapes_same (s : Shape3) : perCellVarShapes s s s s s = .ok () := by
  unfold perCellVarShapes
  rw [broadcast3_self]
  show (if s = (⟨s.nv, s.nlat, s.nlon⟩ : Shape3) then
      (if s = s then (if s = s then assignToDataset s s else Except.error booleanIndexErrMsg)
       else Except.error booleanIndexErrMsg)
    else Except.error booleanIndexErrMsg) = Except.ok ()
  rw [if_pos rfl, if_pos rfl, if_pos rfl]
  unfold assignToDataset
  rw [if_pos rfl]

lemma perTileVarShapes_same (s : Shape3) : perTileVarShapes s s s = .ok () := by
  unfold perTileVarShapes assignToDataset
  rw [if_pos rfl, if_pos rfl]

/-! ### Claim theorems (shape level) -/

/-- C7 counterexample: a concrete pair of mismatched input/output vegetation
grids (2 versus 3 vegetation types) for which the whole pre-synthesis region
of `remap_vegetation` — where any explicit dimension check would live —
completes without raising any error (fill-all mode).  So mismatched shapes
are not rejected by dimension checks running before synthesis. -/
theorem shape_mismatch_no_precheck_cex :
    (Shape3.mk 2 1 1).nv ≠ (Shape3.mk 3 1 1).nv ∧
    remapPreShapes true (Shape3.mk 2 1 1) (Shape3.mk 3 1 1) (some (Shape3.mk 3 1 1)) =
      .ok (Shape3.mk 2 1 1, Shape3.mk 2 1 1) :=
  ⟨by decide, rfl⟩

/-- C7 (amended): `remap_vegetation` contains no explicit dimension checks;
with mismatched vegetation-axis lengths the pre-synthesis region (shape
unpacking, fraction assignment, fill policy) completes without error in
fill-all mode, and the run instead fails later with an implicit
broadcast / boolean-index / masked-array shape error raised inside the
per-cell loop, the per-tile loop, or the masked-output construction. -/
theorem shape_mismatch_implicit_failure (inS outS : Shape3) (perCell perTile : List Shape3)
    (vegMap : Nat → List Int) (hnv : inS.nv ≠ outS.nv) :
    remapPreShapes true inS outS (some outS) = .ok (inS, inS) ∧
    ∃ e, remapShapes true inS outS (some outS) perCell perTile vegMap = .error e :=
  ⟨remapPreShapes_fillall inS outS,
   remapShapes_fillall_mismatch inS outS perCell perTile vegMap hnv⟩

/-- C7 witness: the amended statement at the concrete mismatched shapes. -/
theorem shape_mismatch_implicit_failure_witness :
    remapPreShapes true (Shape3.mk 2 1 1) (Shape3.mk 3 1 1) (some (Shape3.mk 3 1 1)) =
      .ok (Shape3.mk 2 1 1, Shape3.mk 2 1 1) ∧
    ∃ e, remapShapes true (Shape3.mk 2 1 1) (Shape3.mk 3 1 1) (some (Shape3.mk 3 1 1))
      [Shape3.mk 2 1 1] [] (fun v => [(v : Int)]) = .error e :=
  shape_mismatch_implicit_failure (Shape3.mk 2 1 1) (Shape3.mk 3 1 1)
    [Shape3.mk 2 1 1] [] (fun v => [(v : Int)]) (by decide)

/-- C8 counterexample: for a concrete pair of vegetation grids whose
vegetation-axis lengths differ (2 versus 3), the remapping is not
well-defined — the fill-new-only `TilesToFill` conjunction already fails
with an implicit broadcast error. -/
theorem remap_shape_mismatch_cex :
    (Shape3.mk 2 1 1).nv ≠ (Shape3.mk 3 1 1).nv ∧
    remapShapes false (Shape3.mk 2 1 1) (Shape3.mk 3 1 1) (some (Shape3.mk 3 1 1))
      [] [] (fun v => [(v : Int)]) = .error broadcastErrMsg :=
  ⟨by decide, rfl⟩

/-- C8 (amended): the remapping's array pipeline (fill policy, per-cell
aggregation, per-tile initialisation, masked-output construction, synthesis
indexing) is free of shape and index errors when the input grid, output
grid, and every configured variable share one shape and every contributing
index of the vegetation mapping is in range — the working domain requires
nVegIn = nVegOut, not merely that the two vegetation-axis lengths be
well-formed. -/
theorem remap_shape_safety (fillAll : Bool) (s : Shape3) (perCell perTile : List Shape3)
    (vegMap : Nat → List Int)
    (hcell : ∀ vS ∈ perCell, vS = s)
    (htile : ∀ vS ∈ perTile, vS = s)
    (hmap : ∀ v, v < s.nv → ∀ i ∈ vegMap v, 0 ≤ i ∧ i < (s.nv : Int)) :
    remapShapes fillAll s s (some s) perCell perTile vegMap = .ok () := by
  have hcc : checkAll (perCellVarShapes s s s s) perCell = .ok () :=
    checkAll_ok _ _ (fun x hx => by rw [hcell x hx]; exact perCellVarShapes_same s)
  have hct : checkAll (perTileVarShapes s s) perTile = .ok () :=
    checkAll_ok _ _ (fun x hx => by rw [htile x hx]; exact perTileVarShapes_same s)
  have hmask : maskedArrayShapes s s = .ok () := by
    unfold maskedArrayShapes
    rw [if_pos rfl]
  have hsyn : synthShapes s s vegMap perTile = .ok () := by
    unfold synthShapes
    rw [if_pos ?hp]
    case hp =>
      intro v hv i hi
      rcases hmap v hv i hi with ⟨h0, h1⟩
      exact ⟨pyIndex_isSome _ _ h0 h1,
        fun vS hvS => by rw [htile vS hvS]; exact pyIndex_isSome _ _ h0 h1⟩
  have hstep : remapShapes fillAll s s (some s) perCell perTile vegMap =
      remapShapesPost s s s s perCell perTile vegMap := by
    unfold remapShapes
    rw [remapPreShapes_same]
  rw [hstep]
  unfold remapShapesPost
  rw [hcc]
  show exSeq (checkAll (perTileVarShapes s s) perTile)
    (fun _ => exSeq (maskedArrayShapes s s) (fun _ => synthShapes s s vegMap perTile)) = .ok ()
  rw [hct]
  show exSeq (maskedArrayShapes s s) (fun _ => synthShapes s s vegMap perTile) = .ok ()
  rw [hmask]
  exact hsyn

/-- C8 witness: the amended statement at a concrete shape with matching
grids, one per-cell and one per-tile variable and the identity mapping. -/
theorem remap_shape_safety_witness :
    remapShapes false (Shape3.mk 2 1 1) (Shape3.mk 2 1 1) (some (Shape3.mk 2 1 1))
      [Shape3.mk 2 1 1] [Shape3.mk 2 1 1] (fun v => [(v : Int)]) = .ok () :=
  remap_shape_safety false (Shape3.mk 2 1 1) [Shape3.mk 2 1 1] [Shape3.mk 2 1 1]
    (fun v => [(v : Int)]) (by decide) (by decide) (by decide)

/-- C10: the fraction variables written by `remap_vegetation` come from the
module-level global name `NewVegetation`, not from the `OutputVegetation`
parameter: with the global unbound every call fails with `NameError` inside
the pre-synthesis region (before any fill-policy or synthesis work), and
with the global bound to a size-compatible array `g` the written fractions
are exactly `g`, whatever the `OutputVegetation` argument holds. -/
theorem fractions_from_global_newvegetation (outArg : Arr3) :
    (∀ (fillAll : Bool) (inS outS : Shape3),
      remapPreShapes fillAll inS outS none = .error nameErrMsg) ∧
    writtenFractions none outArg = .error nameErrMsg ∧
    (∀ g : Arr3, g.nv = outArg.nv → g.nlat = outArg.nlat → g.nlon = outArg.nlon →
      writtenFractions (some g) outArg = .ok g) := by
  refine ⟨?_, rfl, ?_⟩
  · intro fillAll inS outS
    rfl
  · intro g h1 h2 h3
    show (if g.nv = outArg.nv ∧ g.nlat = outArg.nlat ∧ g.nlon = outArg.nlon then
        Except.ok g else Except.error dimConflictErrMsg) = Except.ok g
    rw [if_pos ⟨h1, h2, h3⟩]

/-! ### Concrete witness data

Small concrete grids on which the claim theorems can be instantiated and
evaluated.  All grids are tiny (at most 2 vegetation types on a 1x1 or 1x3
cell plane) so every hypothesis is decidable by evaluation. -/

/-- Input fractions: type 0 empty (0), type 1 active (1), one cell. -/
def wIn1 : Arr3 := ⟨2, 1, 1, fun v _ _ => if v = 0 then some 0 else some 1⟩

/-- Output fractions: both types active, one cell. -/
def wOut1 : Arr3 := ⟨2, 1, 1, fun _ _ _ => some 1⟩

/-- A per-tile variable whose type-1 value is 5. -/
def wVar1 : RArr3 := ⟨2, 1, 1, fun v _ _ => if v = 1 then 5 else 0⟩

/-- Output type 0 synthesised from input type 1, identity elsewhere. -/
def wMap1 : Nat → List Nat := fun v => if v = 0 then [1] else [v]

/-- Input fractions: the single type empty everywhere (one cell). -/
def wIn2 : Arr3 := ⟨1, 1, 1, fun _ _ _ => some 0⟩

/-- Output fractions: the single type active (one cell). -/
def wOut2 : Arr3 := ⟨1, 1, 1, fun _ _ _ => some 1⟩

/-- A per-tile variable with value 3. -/
def wVar2 : RArr3 := ⟨1, 1, 1, fun _ _ _ => 3⟩

/-- Input fractions on a 1x3 plane: empty at column 0, active elsewhere. -/
def wIn3 : Arr3 := ⟨1, 1, 3, fun _ _ b => if b = 0 then some 0 else some 1⟩

/-- Output fractions on a 1x3 plane: empty at column 2, active elsewhere. -/
def wOut3 : Arr3 := ⟨1, 1, 3, fun _ _ b => if b = 2 then some 0 else some 1⟩

/-- A per-cell variable with value column + 1. -/
def wVar3 : RArr3 := ⟨1, 1, 3, fun _ _ b => (b : ℚ) + 1⟩

/-- Input fractions: the single type fully active (one cell). -/
def wIn4 : Arr3 := ⟨1, 1, 1, fun _ _ _ => some 1⟩

/-! ### Witnesses -/

/-- C1 witness: at the concrete fill point the cell stage already matches the
one active source tile, so the written value is the pooled mean. -/
theorem per_tile_pooled_mean_witness :
    perTileOut true wIn1 wOut1 wVar1 wMap1 1 1 1 0 0 0 =
      specPooledMean wVar1 (pooledPairs wIn1 (wMap1 0) wOut1.nlat wOut1.nlon
        (episodeResult wIn1 (wMap1 0) 1 1 1 wOut1.nlat wOut1.nlon 0 0).1) :=
  per_tile_pooled_mean true wIn1 wOut1 wVar1 wMap1 1 1 1 0 0 0 (by decide) (by decide)
    (by decide) (by decide)

/-- C3 witness: the single vegetation type has no active tile anywhere, so
even the global stage finds zero points and the written value is zero. -/
theorem zero_fill_insufficient_global_witness :
    perTileOut true wIn2 wOut2 wVar2 (fun v => [v]) 0 0 1 0 0 0 = 0 :=
  zero_fill_insufficient_global true wIn2 wOut2 wVar2 (fun v => [v]) 0 0 1 0 0 0
    (by decide) (by decide)

/-- C4 witness: the contract instantiated at an all-true search mask, the
all-empty one-type grid and the contributing list containing index 0. -/
theorem find_active_tiles_contract_witness :
    ∃ L, find_active_tiles (fun _ _ => true) wIn2 [0] = .ok L ∧
      L.length = ([0] : List Int).length ∧
      ∀ k, k < ([0] : List Int).length → ∀ a b,
        (L.getD k (fun _ _ => false)) a b =
          (true && !(isnanQ (wIn2.data (([0] : List Int).getD k 0).toNat a b)) &&
            qgt0 (wIn2.data (([0] : List Int).getD k 0).toNat a b)) :=
  find_active_tiles_contract (fun _ _ => true) wIn2 [0] (by decide)

/-- C5 witness: the three cases of the per-cell characterisation at the
three columns of the concrete 1x3 grids (fill, keep, empty). -/
theorem per_cell_aggregation_witness :
    perCellOut false wIn3 wOut3 wVar3 0 0 0 = awSum wIn3 wVar3 0 0 ∧
    perCellOut false wIn3 wOut3 wVar3 0 0 1 = wVar3.data 0 0 1 ∧
    perCellOut false wIn3 wOut3 wVar3 0 0 2 = 0 :=
  ⟨(per_cell_aggregation false wIn3 wOut3 wVar3 0 0 0).1 (by decide),
   (per_cell_aggregation false wIn3 wOut3 wVar3 0 0 1).2.1 (by decide) (by decide),
   (per_cell_aggregation false wIn3 wOut3 wVar3 0 0 2).2.2 (by decide) (by decide)⟩

/-- C9 witness: with every input fraction positive and fill-all mode, both
kinds of variable keep their input values. -/
theorem fill_all_idempotent_witness :
    perCellOut true wIn4 wOut2 wVar2 0 0 0 = wVar2.data 0 0 0 ∧
    perTileOut true wIn4 wOut2 wVar2 (fun v => [v]) 0 0 1 0 0 0 = wVar2.data 0 0 0 :=
  fill_all_idempotent wIn4 wOut2 wVar2 (fun v => [v]) 0 0 1 (by decide) 0 0 0
    (by decide) (by decide) (by decide)

/-- C10 witness: with the global bound to an array different from the
`OutputVegetation` argument, the written fractions are the global. -/
theorem fractions_from_global_newvegetation_witness :
    writtenFractions (some wIn4) wIn2 = .ok wIn4 :=
  (fractions_from_global_newvegetation wIn2).2.2 wIn4 rfl rfl rfl
